import Mathlib

/-!
Verification of the Aegis PII Leakage Detector against its specification.

The frontend TypeScript sources (API client, auth context, scan tabs,
results/history components) are embedded directly.  The backend detection
pipeline (validators, disambiguation filter, scorer) is present in the
repository only through its README; where a claim depends on it, the
definitions are modelled from the spec and marked as such.

Numbers handled by the TypeScript code are modelled as rationals; the
arithmetic the claims mention (sums, halving, maxima) is exact in both.
-/

-- ══════════════════════════════ DEFINITIONS ══════════════════════════════

-- ── Verhoeff / Aadhaar (modelled from spec §4.2) ──────────────────────────

/-- Modelled from the spec: the Verhoeff multiplication table (dihedral group
D5) of the Aadhaar validator in `backend/detection/validators.py`, which is
described by the spec and the backend README but absent from the source
tree. -/
def verhoeffD : List (List Nat) :=
  [[0,1,2,3,4,5,6,7,8,9],
   [1,2,3,4,0,6,7,8,9,5],
   [2,3,4,0,1,7,8,9,5,6],
   [3,4,0,1,2,8,9,5,6,7],
   [4,0,1,2,3,9,5,6,7,8],
   [5,9,8,7,6,0,4,3,2,1],
   [6,5,9,8,7,1,0,4,3,2],
   [7,6,5,9,8,2,1,0,4,3],
   [8,7,6,5,9,3,2,1,0,4],
   [9,8,7,6,5,4,3,2,1,0]]

/-- Modelled from the spec: the Verhoeff 8-row permutation table. -/
def verhoeffP : List (List Nat) :=
  [[0,1,2,3,4,5,6,7,8,9],
   [1,5,7,6,2,8,3,0,9,4],
   [5,8,0,3,7,9,6,1,4,2],
   [8,9,1,6,0,4,3,5,2,7],
   [9,4,5,3,1,2,6,8,7,0],
   [4,2,8,6,5,7,3,9,0,1],
   [2,7,9,3,8,0,6,4,1,5],
   [7,0,4,6,9,1,3,2,5,8]]

/-- Table multiplication `d[c][x]` of the Verhoeff algorithm. -/
def dT (c x : Nat) : Nat := (verhoeffD.getD c []).getD x 0

/-- Table permutation `p[r][x]` of the Verhoeff algorithm. -/
def pT (r x : Nat) : Nat := (verhoeffP.getD r []).getD x 0

/-- Modelled from the spec: the Verhoeff accumulator loop — digits are
consumed in right-to-left order (the caller reverses the digit list), the
permutation row is the position mod 8, and the accumulator is updated through
the multiplication table. -/
def verhoeffAcc : List Nat → Nat → Nat → Nat
  | [], _, c => c
  | x :: xs, i, c => verhoeffAcc xs (i + 1) (dT c (pT (i % 8) x))

/-- Modelled from the spec: the Verhoeff checksum of a digit list given in
the written (left-to-right) order. -/
def verhoeffChecksum (digits : List Nat) : Nat :=
  verhoeffAcc digits.reverse 0 0

/-- Modelled from the spec: a digit list passes the Verhoeff check exactly
when the final accumulator is zero. -/
def verhoeffValid (digits : List Nat) : Bool :=
  verhoeffChecksum digits == 0

/-- A known Verhoeff-valid 12-digit (Aadhaar-shaped) vector, `234123412346`. -/
def aadhaarTestVector : List Nat := [2,3,4,1,2,3,4,1,2,3,4,6]

/-- Modelled from the spec: the Aadhaar validator of
`backend/detection/validators.py` — a 12-digit sequence whose Verhoeff
accumulator is zero; any length mismatch, non-digit, or nonzero accumulator
is invalid. -/
def validateAadhaar (s : String) : Bool :=
  s.length == 12 && s.data.all Char.isDigit
    && verhoeffValid (s.data.map (fun ch => ch.toNat - 48))

-- ── Luhn and PAN validators (modelled from spec §4.2) ─────────────────────

/-- Modelled from the spec: Luhn doubling — double the digit, subtract 9 when
the doubled value exceeds 9. -/
def luhnDouble (d : Nat) : Nat := if 9 < 2 * d then 2 * d - 9 else 2 * d

/-- Modelled from the spec: Luhn digit sum over digits listed from the
rightmost; the flag marks whether the current digit is doubled (every second
digit from the rightmost is). -/
def luhnSum : List Nat → Bool → Nat
  | [], _ => 0
  | d :: ds, dbl => (if dbl then luhnDouble d else d) + luhnSum ds (!dbl)

/-- Modelled from the spec: card-number validator — all digits, nonempty,
Luhn sum divisible by 10. -/
def validateCard (s : String) : Bool :=
  !s.isEmpty && s.data.all Char.isDigit
    && luhnSum ((s.data.map (fun ch => ch.toNat - 48)).reverse) false % 10 == 0

/-- Modelled from the spec: the known PAN fourth-character entity-type set
(individual, company, trust, etc.). -/
def panEntityChars : List Char := ['P','C','H','F','A','T','B','L','J','G']

/-- Modelled from the spec: PAN structural validator — exactly 10 characters,
positions 1–5 alphabetic with the 4th in the entity-type set, positions 6–9
numeric, position 10 alphabetic. -/
def validatePan (s : String) : Bool :=
  s.length == 10
    && (s.data.take 5).all Char.isAlpha
    && panEntityChars.contains (s.data.getD 3 ' ')
    && ((s.data.drop 5).take 4).all Char.isDigit
    && (s.data.getD 9 ' ').isAlpha

/-- Modelled from the spec: the fixed lookup of valid Indian GST state codes
(the two-digit prefixes 01–38 together with the special jurisdiction codes
97 and 99). -/
def gstinStateCodes : List String :=
  ["01","02","03","04","05","06","07","08","09","10",
   "11","12","13","14","15","16","17","18","19","20",
   "21","22","23","24","25","26","27","28","29","30",
   "31","32","33","34","35","36","37","38","97","99"]

/-- Modelled from the spec: GSTIN validator — 15 characters, the first two a
valid state code from the fixed lookup, characters 3–12 passing PAN
structural validation (embedded-PAN check), and the remainder
format-validated as alphanumeric. -/
def validateGstin (s : String) : Bool :=
  s.length == 15
    && gstinStateCodes.contains (String.mk (s.data.take 2))
    && validatePan (String.mk ((s.data.drop 2).take 10))
    && (s.data.drop 12).all Char.isAlphanum

/-- Modelled from the backend README: ABHA validator — a 14-digit pattern. -/
def validateAbha (s : String) : Bool :=
  s.length == 14 && s.data.all Char.isDigit

-- ── Candidate promotion (modelled from spec §3, §4.2) ─────────────────────

/-- Modelled from the spec: a recognizer candidate (§3); ephemeral, never
persisted as-is. -/
structure Candidate where
  type : String
  raw_span : String
  raw_value : String
  start_offset : Nat
  end_offset : Nat
  source_ref : String
  raw_confidence : ℚ
deriving DecidableEq, Repr

/-- The `Finding` interface of the frontend API client (`src/lib/api.ts`).
It carries both the raw matched `value` and the `value_masked` form. -/
structure Finding where
  type : String
  value : String
  value_masked : String
  snippet : String
  confidence : ℚ
  risk : String
  annotation : String
  file_path : Option String := none
  source : Option String := none
  source_url : Option String := none
  platform : Option String := none
  content_type : Option String := none
deriving DecidableEq, Repr

/-- Modelled from the spec: masking that retains only the first two and last
two characters of the raw value, replacing the middle with `X`. -/
def maskValue (s : String) : String :=
  String.mk (s.data.take 2 ++ List.replicate (s.length - 4) 'X'
    ++ s.data.drop (s.length - 2))

/-- Modelled from the backend README's supported-PII-types table: the risk
tier assigned to each entity type. -/
def riskFor (t : String) : String :=
  if t = "AADHAAR" || t = "CARD" then "Critical"
  else if t = "PAN" || t = "GSTIN" || t = "ABHA" || t = "PASSPORT" then "High"
  else if t = "UPI" || t = "PHONE" then "Medium"
  else "Low"

/-- Modelled from the spec: per-type validator confidence floor (a
Verhoeff-passing Aadhaar floors at 0.95 regardless of recognizer score). -/
def validatorFloor (t : String) : ℚ :=
  if t = "AADHAAR" then 95 / 100 else 0

/-- Modelled from the spec: the per-type validator registry (§4.2 / README
Phase B) — Aadhaar (Verhoeff), Card (Luhn), PAN (structure), GSTIN (state
code + embedded PAN), and ABHA (14-digit pattern).  The remaining types
(passport, UPI, phone, email, person names) have only the Phase A recognizer
pattern, so they carry no Phase B check and pass here. -/
def validatorFor (t : String) (raw : String) : Bool :=
  if t = "AADHAAR" then validateAadhaar raw
  else if t = "CARD" then validateCard raw
  else if t = "PAN" then validatePan raw
  else if t = "GSTIN" then validateGstin raw
  else if t = "ABHA" then validateAbha raw
  else true

/-- Modelled from the spec: promotion of a validated candidate to a Finding
with confidence floored by the validator; an invalid candidate is discarded
entirely (`none`), never down-weighted. -/
def promoteCandidate (c : Candidate) : Option Finding :=
  if validatorFor c.type c.raw_value then
    some { type := c.type,
           value := c.raw_value,
           value_masked := maskValue c.raw_value,
           snippet := c.raw_span,
           confidence := max c.raw_confidence (validatorFloor c.type),
           risk := riskFor c.type,
           annotation := "",
           source := some c.source_ref }
  else none

/-- Modelled from the spec: the validation stage over all candidates; only
promoted candidates survive. -/
def runValidation (cs : List Candidate) : List Finding :=
  cs.filterMap promoteCandidate

-- ── Disambiguation filter (modelled from spec §4.3) ───────────────────────

/-- Modelled from the spec: verdict of the disambiguation classifier. -/
structure DisambiguationVerdict where
  is_synthetic : Bool
  probability : ℚ
deriving DecidableEq, Repr

/-- Modelled from the spec: demotion of a risk tier by exactly one step. -/
def demoteRisk : String → String
  | "Critical" => "High"
  | "High" => "Medium"
  | "Medium" => "Low"
  | _ => "Low"

/-- Modelled from the spec: the fixed synthetic-probability threshold 0.6. -/
def synthThreshold : ℚ := 6 / 10

/-- Modelled from the spec: one finding through the disambiguation filter —
demoted one tier and confidence scaled by (1 − probability) when classified
synthetic above the threshold, otherwise untouched; never deleted. -/
def applyDisambiguation (classify : Finding → DisambiguationVerdict)
    (f : Finding) : Finding :=
  let v := classify f
  if v.is_synthetic = true ∧ synthThreshold < v.probability then
    { f with risk := demoteRisk f.risk,
             confidence := f.confidence * (1 - v.probability) }
  else f

/-- Modelled from the spec: the optional disambiguation stage; when disabled
all findings pass through unchanged. -/
def runDisambiguation (enabled : Bool)
    (classify : Finding → DisambiguationVerdict) (fs : List Finding) :
    List Finding :=
  if enabled then fs.map (applyDisambiguation classify) else fs

-- ── Frontend response / history / report structures (`src/lib/api.ts`) ────

/-- The `ESSSummary` interface of the frontend API client. -/
structure ESSSummary where
  max_ess : ℚ
  avg_ess : ℚ
  label : String
  color : String
  total_sources : Nat
  all_types : List String
deriving DecidableEq, Repr

/-- The `ScanResponse` interface of the frontend API client. -/
structure ScanResponse where
  findings : List Finding
  ess_summary : Option ESSSummary
  total_sources_scanned : Nat
  scan_duration : ℚ
deriving DecidableEq, Repr

/-- The body of a `/history/save` request — `ScanHistoryItem` without the
server-assigned `id` and `created_at` fields. -/
structure ScanHistoryRequest where
  scan_type : String
  target : String
  findings_count : Nat
  max_ess : ℚ
  ess_label : String
  sources_scanned : Nat
  scan_duration : ℚ
deriving DecidableEq, Repr

/-- The history-save effect of `ScanResults.tsx`: aggregates only, with the
nullish fallbacks `ess_summary?.max_ess ?? 0` and `ess_summary?.label ?? ""`. -/
def buildHistoryRequest (results : ScanResponse) (scanType target : String) :
    ScanHistoryRequest :=
  { scan_type := scanType,
    target := target,
    findings_count := results.findings.length,
    max_ess := match results.ess_summary with
      | some s => s.max_ess
      | none => 0,
    ess_label := match results.ess_summary with
      | some s => s.label
      | none => "",
    sources_scanned := results.total_sources_scanned,
    scan_duration := results.scan_duration }

/-- The body of a `/report/html` request as built by
`ReportDownloadButton.handleDownload`. -/
structure ReportRequest where
  findings : List Finding
  ess_results : List ESSSummary
  scan_type : String
  target : String
  files_scanned : Nat
deriving DecidableEq, Repr

/-- The download handler of `ReportDownloadButton`: returns without issuing
a request when the findings list is empty, otherwise posts the findings
verbatim. -/
def buildReportRequest (findings : List Finding)
    (scanType target : String) (filesScanned : Nat) : Option ReportRequest :=
  if findings.length = 0 then none
  else some { findings := findings,
              ess_results := [],
              scan_type := scanType,
              target := target,
              files_scanned := filesScanned }

-- ── Combined-scan merge (`CombinedTab.handleScan`) ────────────────────────

/-- JS `o?.max_ess || 0` over an optional summary (0 is its own fallback, so
the falsy case coincides with the numeric value). -/
def summaryMaxOr0 (o : Option ESSSummary) : ℚ :=
  match o with
  | some s => s.max_ess
  | none => 0

/-- JS `o?.avg_ess || 0` over an optional summary. -/
def summaryAvgOr0 (o : Option ESSSummary) : ℚ :=
  match o with
  | some s => s.avg_ess
  | none => 0

/-- JS `o?.label || dflt`: the empty string is falsy and also falls back. -/
def summaryLabelOr (o : Option ESSSummary) (dflt : String) : String :=
  match o with
  | some s => if s.label = "" then dflt else s.label
  | none => dflt

/-- JS `o?.color || dflt`. -/
def summaryColorOr (o : Option ESSSummary) (dflt : String) : String :=
  match o with
  | some s => if s.color = "" then dflt else s.color
  | none => dflt

/-- JS `o?.total_sources || 0`. -/
def summaryTotalOr0 (o : Option ESSSummary) : Nat :=
  match o with
  | some s => s.total_sources
  | none => 0

/-- JS `o?.all_types || []` (an array is always truthy, so only the missing
summary falls back). -/
def summaryTypesOr (o : Option ESSSummary) : List String :=
  match o with
  | some s => s.all_types
  | none => []

/-- JS `[...new Set(l)]`: deduplication keeping first occurrences. -/
def jsSetDedup : List String → List String
  | [] => []
  | x :: xs => x :: jsSetDedup (xs.filter (fun y => y ≠ x))
termination_by l => l.length
decreasing_by
  simp only [List.length_cons]
  exact Nat.lt_succ_of_le (List.length_filter_le _ _)

/-- The merge performed by `CombinedTab.handleScan` on the GitHub and
Pastebin scan responses (lines 57–79 of the component). -/
def mergeCombined (gh pb : ScanResponse) : ScanResponse :=
  { findings := gh.findings ++ pb.findings,
    ess_summary :=
      if gh.ess_summary.isSome || pb.ess_summary.isSome then
        some
          { max_ess := max (summaryMaxOr0 gh.ess_summary)
                 (summaryMaxOr0 pb.ess_summary),
               avg_ess := (summaryAvgOr0 gh.ess_summary
                 + summaryAvgOr0 pb.ess_summary) / 2,
               label := if summaryMaxOr0 pb.ess_summary
                   ≤ summaryMaxOr0 gh.ess_summary
                 then summaryLabelOr gh.ess_summary "Unknown"
                 else summaryLabelOr pb.ess_summary "Unknown",
               color := if summaryMaxOr0 pb.ess_summary
                   ≤ summaryMaxOr0 gh.ess_summary
                 then summaryColorOr gh.ess_summary "#888"
                 else summaryColorOr pb.ess_summary "#888",
               total_sources := summaryTotalOr0 gh.ess_summary
                 + summaryTotalOr0 pb.ess_summary,
               all_types := jsSetDedup (summaryTypesOr gh.ess_summary
                 ++ summaryTypesOr pb.ess_summary) }
      else none,
    total_sources_scanned := gh.total_sources_scanned + pb.total_sources_scanned,
    scan_duration := max gh.scan_duration pb.scan_duration }

/-- The definition given by the spec (§4.4) for `avg_ess`: the arithmetic
mean of the per-source scores over the sources with at least one finding.
Stated over the score list itself for comparison with the code. -/
def specMeanScore (scores : List ℚ) : ℚ := scores.sum / scores.length

/-- The definition given by the spec (§4.4) for `max_ess`: the maximum
per-source score (0 when there is none). -/
def specMaxScore (scores : List ℚ) : ℚ := scores.foldr max 0

-- ── Auth context (`src/contexts/AuthContext.tsx`) ─────────────────────────

/-- The `User` interface of the auth context. -/
structure User where
  email : String
  full_name : String
deriving DecidableEq, Repr

/-- The `aegis_user` localStorage slot, abstracted by the outcome of the
`JSON.parse` the auth context applies to it: `absent` covers a missing key or
an empty (JS-falsy) stored string, `unparseable` a non-empty string that
`JSON.parse` rejects, and `parsed u` a non-empty string parsing to `u`. -/
inductive UserSlot
  | absent
  | unparseable
  | parsed (u : User)
deriving DecidableEq, Repr

/-- The two localStorage keys the auth context owns (`aegis_token`,
`aegis_user`). -/
structure AuthStorage where
  token : Option String
  user : UserSlot
deriving DecidableEq, Repr

/-- The auth provider's state together with its storage. -/
structure AuthState where
  user : Option User
  token : Option String
  storage : AuthStorage
deriving DecidableEq, Repr

/-- JS truthiness of a nullable string (`null` and `""` are falsy). -/
def jsTruthy (o : Option String) : Bool :=
  match o with
  | some s => !s.isEmpty
  | none => false

/-- The provider's computed value `isAuthenticated: !!token && !!user`. -/
def isAuthenticated (s : AuthState) : Bool :=
  jsTruthy s.token && s.user.isSome

/-- The success path of `login`: sets both localStorage keys and both state
fields from the server payload. -/
def loginSuccess (accessToken userEmail userName : String)
    (_s : AuthState) : AuthState :=
  { user := some { email := userEmail, full_name := userName },
    token := some accessToken,
    storage := { token := some accessToken,
                 user := UserSlot.parsed { email := userEmail, full_name := userName } } }

/-- The success path of `register`; identical to the login success path. -/
def registerSuccess (accessToken userEmail userName : String)
    (_s : AuthState) : AuthState :=
  { user := some { email := userEmail, full_name := userName },
    token := some accessToken,
    storage := { token := some accessToken,
                 user := UserSlot.parsed { email := userEmail, full_name := userName } } }

/-- The `logout` callback: removes both localStorage keys and nulls both
state fields. -/
def logout (_s : AuthState) : AuthState :=
  { user := none, token := none,
    storage := { token := none, user := UserSlot.absent } }

/-- The mount-time restore effect of `AuthProvider`: when both stored values
are JS-truthy it enqueues `setToken(storedToken)` and then parses the stored
user — on a parse failure the token update has already been enqueued, the
user stays null, and both storage keys are removed. -/
def restoreFromStorage (st : AuthStorage) : AuthState :=
  match st.token with
  | some t =>
      if t.isEmpty then { user := none, token := none, storage := st }
      else
        match st.user with
        | UserSlot.parsed u => { user := some u, token := some t, storage := st }
        | UserSlot.unparseable =>
            { user := none, token := some t,
              storage := { token := none, user := UserSlot.absent } }
        | UserSlot.absent => { user := none, token := none, storage := st }
  | none => { user := none, token := none, storage := st }

-- ── API URL storage (`src/lib/api.ts`) ────────────────────────────────────

/-- The normalization `url.replace` with pattern "/\\/+$/" applied by
`setApiUrl`: strip every trailing slash character. -/
def stripTrailingSlashes (u : String) : String :=
  String.mk ((u.data.reverse.dropWhile (fun c => c = '/')).reverse)

/-- The `aegis_api_url` localStorage slot. -/
structure ApiStorage where
  apiUrl : Option String
deriving DecidableEq, Repr

/-- The exported `setApiUrl`: stores the URL with trailing slashes removed. -/
def setApiUrl (url : String) (_st : ApiStorage) : ApiStorage :=
  { apiUrl := some (stripTrailingSlashes url) }

/-- The exported `getApiUrl`:
`localStorage.getItem("aegis_api_url") || DEFAULT_API_URL` — JS `||` falls
back both on a missing key and on a stored empty string. -/
def getApiUrl (defaultApiUrl : String) (st : ApiStorage) : String :=
  match st.apiUrl with
  | some s => if s.isEmpty then defaultApiUrl else s
  | none => defaultApiUrl

-- ── Registration form (`src/pages/Register.tsx`) ──────────────────────────

/-- Outcome of the registration submit handler: either an error message is
set and no network call happens, or the register API call is issued. -/
inductive SubmitOutcome
  | errorSet (message : String)
  | registerCalled (email password fullName : String)
deriving DecidableEq, Repr

/-- The `handleSubmit` guard chain of `Register.tsx`: empty-field check,
minimum password length, then password match, in that order, each returning
early with an error; only past all three is `register` called. -/
def handleSubmit (fullName email password confirmPassword : String) :
    SubmitOutcome :=
  if fullName = "" ∨ email = "" ∨ password = "" ∨ confirmPassword = "" then
    SubmitOutcome.errorSet "Please fill in all fields"
  else if password.length < 6 then
    SubmitOutcome.errorSet "Password must be at least 6 characters"
  else if password ≠ confirmPassword then
    SubmitOutcome.errorSet "Passwords do not match"
  else
    SubmitOutcome.registerCalled email password fullName

-- ── Concrete instances used by witnesses and counterexamples ──────────────

/-- A checksum-valid Aadhaar candidate as produced by the recognizer. -/
def cexCandidate : Candidate :=
  { type := "AADHAAR",
    raw_span := "aadhaar: 234123412346",
    raw_value := "234123412346",
    start_offset := 9,
    end_offset := 21,
    source_ref := "config.py",
    raw_confidence := 7 / 10 }

/-- A GSTIN-shaped candidate with a well-formed embedded PAN but the invalid
state code 00, so the GSTIN validator rejects it. -/
def badGstinCandidate : Candidate :=
  { type := "GSTIN",
    raw_span := "gstin: 00ABCPE1234F1Z5",
    raw_value := "00ABCPE1234F1Z5",
    start_offset := 7,
    end_offset := 22,
    source_ref := "invoice.txt",
    raw_confidence := 8 / 10 }

/-- A checksum-invalid Aadhaar-shaped candidate (last digit flipped). -/
def badAadhaarCandidate : Candidate :=
  { type := "AADHAAR",
    raw_span := "aadhaar: 234123412340",
    raw_value := "234123412340",
    start_offset := 9,
    end_offset := 21,
    source_ref := "config.py",
    raw_confidence := 7 / 10 }

/-- A scan response with no findings and no summary. -/
def emptyScanResponse : ScanResponse :=
  { findings := [], ess_summary := none,
    total_sources_scanned := 0, scan_duration := 0 }

/-- A single Aadhaar finding used by the combined-scan counterexample. -/
def findingC5 : Finding :=
  { type := "AADHAAR",
    value := "234123412346",
    value_masked := "23XXXXXXXX46",
    snippet := "aadhaar: 234123412346",
    confidence := 95 / 100,
    risk := "Critical",
    annotation := "",
    source := some "config.py" }

/-- A GitHub scan response with one scored source (score 8). -/
def ghC5 : ScanResponse :=
  { findings := [findingC5],
    ess_summary := some
      { max_ess := 8, avg_ess := 8, label := "HIGH",
        color := "#f97316", total_sources := 1, all_types := ["AADHAAR"] },
    total_sources_scanned := 1,
    scan_duration := 2 }

/-- A Pastebin scan response with no findings at all. -/
def pbC5 : ScanResponse :=
  { findings := [], ess_summary := none,
    total_sources_scanned := 3, scan_duration := 1 }

/-- The merged summary `CombinedTab.handleScan` produces for `ghC5`/`pbC5`. -/
def essC5 : ESSSummary :=
  { max_ess := 8, avg_ess := 4, label := "HIGH", color := "#f97316",
    total_sources := 1, all_types := ["AADHAAR"] }

/-- A classifier that always reports synthetic with probability 0.9. -/
def classify0 : Finding → DisambiguationVerdict :=
  fun _ => { is_synthetic := true, probability := 9 / 10 }

/-- The "test card: 4111111111111111" finding of the spec's scenario. -/
def testCardFinding : Finding :=
  { type := "CARD",
    value := "4111111111111111",
    value_masked := "41XXXXXXXXXXXX11",
    snippet := "test card: 4111111111111111",
    confidence := 9 / 10,
    risk := "Critical",
    annotation := "" }

/-- Storage with a truthy token and an unparseable stored user. -/
def stC8 : AuthStorage :=
  { token := some "tok", user := UserSlot.unparseable }

-- ══════════════════════════════ THEOREMS ═════════════════════════════════

-- ── Verhoeff table lemmas (all by finite check) ───────────────────────────

theorem dT_lt : ∀ c < 10, ∀ x < 10, dT c x < 10 := by decide

theorem pT_lt : ∀ r < 8, ∀ x < 10, pT r x < 10 := by decide

theorem dT_row_inj : ∀ c < 10, ∀ x < 10, ∀ y < 10, dT c x = dT c y → x = y := by
  decide

theorem dT_col_inj : ∀ c₁ < 10, ∀ c₂ < 10, ∀ x < 10, dT c₁ x = dT c₂ x → c₁ = c₂ := by
  decide

theorem pT_row_inj : ∀ r < 8, ∀ x < 10, ∀ y < 10, pT r x = pT r y → x = y := by
  decide

-- ── Verhoeff accumulator lemmas ───────────────────────────────────────────

theorem verhoeffAcc_append (u v : List Nat) (i c : Nat) :
    verhoeffAcc (u ++ v) i c = verhoeffAcc v (i + u.length) (verhoeffAcc u i c) := by
  induction u generalizing i c with
  | nil => simp [verhoeffAcc]
  | cons x xs ih =>
      rw [List.cons_append]
      simp only [verhoeffAcc, List.length_cons]
      rw [ih]
      congr 1
      omega

theorem verhoeffAcc_lt (xs : List Nat) (i c : Nat)
    (hxs : ∀ z ∈ xs, z < 10) (hc : c < 10) : verhoeffAcc xs i c < 10 := by
  induction xs generalizing i c with
  | nil => simpa [verhoeffAcc] using hc
  | cons x xs ih =>
      simp only [verhoeffAcc]
      have hx : x < 10 := hxs x (List.mem_cons_self x xs)
      have hp : pT (i % 8) x < 10 := pT_lt _ (Nat.mod_lt _ (by decide)) _ hx
      exact ih (i + 1) _ (fun z hz => hxs z (List.mem_cons_of_mem _ hz))
        (dT_lt _ hc _ hp)

theorem verhoeffAcc_inj (xs : List Nat) (i c₁ c₂ : Nat)
    (hxs : ∀ z ∈ xs, z < 10) (h₁ : c₁ < 10) (h₂ : c₂ < 10) (hne : c₁ ≠ c₂) :
    verhoeffAcc xs i c₁ ≠ verhoeffAcc xs i c₂ := by
  induction xs generalizing i c₁ c₂ with
  | nil => simpa [verhoeffAcc] using hne
  | cons x xs ih =>
      simp only [verhoeffAcc]
      have hx : x < 10 := hxs x (List.mem_cons_self x xs)
      have hp : pT (i % 8) x < 10 := pT_lt _ (Nat.mod_lt _ (by decide)) _ hx
      refine ih (i + 1) _ _ (fun z hz => hxs z (List.mem_cons_of_mem _ hz))
        (dT_lt _ h₁ _ hp) (dT_lt _ h₂ _ hp) (fun heq => hne ?_)
      exact dT_col_inj _ h₁ _ h₂ _ hp heq

theorem verhoeffChecksum_flip (a b : List Nat) (x y : Nat)
    (ha : ∀ z ∈ a, z < 10) (hb : ∀ z ∈ b, z < 10) (hx : x < 10) (hy : y < 10)
    (hne : x ≠ y) :
    verhoeffChecksum (a ++ x :: b) ≠ verhoeffChecksum (a ++ y :: b) := by
  have hrev : ∀ z : Nat, (a ++ z :: b).reverse = (b.reverse ++ [z]) ++ a.reverse := by
    intro z; simp
  have hb' : ∀ z ∈ b.reverse, z < 10 := fun z hz => hb z (List.mem_reverse.mp hz)
  have ha' : ∀ z ∈ a.reverse, z < 10 := fun z hz => ha z (List.mem_reverse.mp hz)
  have hcb : verhoeffAcc b.reverse 0 0 < 10 := verhoeffAcc_lt _ _ _ hb' (by decide)
  have hp : pT (b.length % 8) x ≠ pT (b.length % 8) y := fun heq =>
    hne (pT_row_inj _ (Nat.mod_lt _ (by decide)) _ hx _ hy heq)
  have hpx : pT (b.length % 8) x < 10 := pT_lt _ (Nat.mod_lt _ (by decide)) _ hx
  have hpy : pT (b.length % 8) y < 10 := pT_lt _ (Nat.mod_lt _ (by decide)) _ hy
  have hd : dT (verhoeffAcc b.reverse 0 0) (pT (b.length % 8) x)
      ≠ dT (verhoeffAcc b.reverse 0 0) (pT (b.length % 8) y) := fun heq =>
    hp (dT_row_inj _ hcb _ hpx _ hpy heq)
  unfold verhoeffChecksum
  rw [hrev x, hrev y, verhoeffAcc_append, verhoeffAcc_append,
    verhoeffAcc_append, verhoeffAcc_append]
  simp only [verhoeffAcc, List.length_append, List.length_reverse,
    List.length_cons, List.length_nil, Nat.zero_add]
  exact verhoeffAcc_inj _ _ _ _ ha' (dT_lt _ hcb _ hpx) (dT_lt _ hcb _ hpy) hd

-- ── C3: Verhoeff validator correctness ────────────────────────────────────

/-- C3: the Aadhaar Verhoeff validator — digits processed right-to-left with
the permutation indexed by position mod 8, accumulated through the D5
multiplication table — accepts exactly when the final accumulator is 0; the
known 12-digit vector 234123412346 validates true, and flipping any single
digit of a valid 12-digit number makes the validator return invalid. -/
theorem verhoeff_validator_correct :
    verhoeffValid aadhaarTestVector = true ∧
    (∀ ds : List Nat, verhoeffValid ds = true ↔ verhoeffChecksum ds = 0) ∧
    (∀ (a b : List Nat) (x y : Nat),
      (∀ z ∈ a, z < 10) → (∀ z ∈ b, z < 10) → x < 10 → y < 10 → x ≠ y →
      (a ++ x :: b).length = 12 →
      verhoeffValid (a ++ x :: b) = true → verhoeffValid (a ++ y :: b) = false) := by
  refine ⟨by decide, fun ds => by simp [verhoeffValid], ?_⟩
  intro a b x y ha hb hx hy hne _ hvalid
  have h0 : verhoeffChecksum (a ++ x :: b) = 0 := by
    simpa [verhoeffValid] using hvalid
  have hflip := verhoeffChecksum_flip a b x y ha hb hx hy hne
  rw [h0] at hflip
  simpa only [verhoeffValid, beq_eq_false_iff_ne] using (Ne.symm hflip)

/-- Witness for the Verhoeff claim at a concrete input: 234123412346 is valid
and flipping its last digit to 7 invalidates it. -/
theorem verhoeff_validator_correct_witness :
    verhoeffValid [2,3,4,1,2,3,4,1,2,3,4,6] = true ∧
    verhoeffValid [2,3,4,1,2,3,4,1,2,3,4,7] = false := by
  refine ⟨by decide, ?_⟩
  exact verhoeff_validator_correct.2.2 [2,3,4,1,2,3,4,1,2,3,4] [] 6 7
    (by decide) (by decide) (by decide) (by decide) (by decide) (by decide)
    (by decide)

-- ── C2: invalid candidates are dropped entirely ───────────────────────────

theorem promoteCandidate_eq_some {c : Candidate} {f : Finding}
    (h : promoteCandidate c = some f) :
    validatorFor c.type c.raw_value = true ∧ f.type = c.type := by
  unfold promoteCandidate at h
  split at h
  · next hv => cases h; exact ⟨hv, rfl⟩
  · exact absurd h (by simp)

/-- C2: a candidate failing its type-specific validation is dropped
entirely — every finding emitted by the validation stage stems from a
candidate whose validator passed, a failing candidate promotes to nothing,
and a batch whose Aadhaar-shaped candidates all fail the Verhoeff check
yields no Aadhaar finding at all (so nothing of that type reaches the
disambiguation or scoring stages). -/
theorem invalid_candidates_dropped :
    (∀ (cs : List Candidate) (f : Finding), f ∈ runValidation cs →
      ∃ c ∈ cs, validatorFor c.type c.raw_value = true
        ∧ promoteCandidate c = some f) ∧
    (∀ c : Candidate, validatorFor c.type c.raw_value = false →
      promoteCandidate c = none) ∧
    (∀ cs : List Candidate,
      (∀ c ∈ cs, c.type = "AADHAAR" → validateAadhaar c.raw_value = false) →
      ∀ f ∈ runValidation cs, f.type ≠ "AADHAAR") := by
  refine ⟨?_, ?_, ?_⟩
  · intro cs f hf
    obtain ⟨c, hc, hp⟩ := List.mem_filterMap.mp hf
    exact ⟨c, hc, (promoteCandidate_eq_some hp).1, hp⟩
  · intro c hv
    unfold promoteCandidate
    simp [hv]
  · intro cs hall f hf hty
    obtain ⟨c, hc, hp⟩ := List.mem_filterMap.mp hf
    obtain ⟨hv, htyp⟩ := promoteCandidate_eq_some hp
    have hA : c.type = "AADHAAR" := by rw [← htyp, hty]
    rw [hA] at hv
    simp only [validatorFor, if_pos rfl] at hv
    exact absurd hv (by simp [hall c hc hA])

/-- Witness for the dropped-candidates claim: the checksum-invalid
Aadhaar-shaped candidate 234123412340 yields zero findings, and the
state-code-invalid GSTIN candidate 00ABCPE1234F1Z5 promotes to nothing. -/
theorem invalid_candidates_dropped_witness :
    (∀ f ∈ runValidation [badAadhaarCandidate], f.type ≠ "AADHAAR") ∧
    runValidation [badAadhaarCandidate] = [] ∧
    promoteCandidate badGstinCandidate = none := by
  exact ⟨invalid_candidates_dropped.2.2 [badAadhaarCandidate] (by decide),
    by decide,
    invalid_candidates_dropped.2.1 badGstinCandidate (by decide)⟩

-- ── C4: merged ess_summary is null iff findings is empty ──────────────────

/-- C4: the merged response built by the combined GitHub+Pastebin scan keeps
the invariant that `ess_summary` is null exactly when `findings` is empty,
given sub-responses that satisfy it themselves. -/
theorem merged_summary_null_iff_no_findings (gh pb : ScanResponse)
    (hg : gh.ess_summary = none ↔ gh.findings = [])
    (hp : pb.ess_summary = none ↔ pb.findings = []) :
    (mergeCombined gh pb).ess_summary = none
      ↔ (mergeCombined gh pb).findings = [] := by
  rcases hgs : gh.ess_summary with _ | s1 <;> rcases hps : pb.ess_summary with _ | s2
  · have e1 : gh.findings = [] := hg.mp hgs
    have e2 : pb.findings = [] := hp.mp hps
    simp [mergeCombined, hgs, hps, e1, e2]
  · have ne2 : pb.findings ≠ [] := fun h => by
      have := hp.mpr h
      rw [hps] at this
      cases this
    simp [mergeCombined, hgs, hps, List.append_eq_nil]
    tauto
  · have ne1 : gh.findings ≠ [] := fun h => by
      have := hg.mpr h
      rw [hgs] at this
      cases this
    simp [mergeCombined, hgs, hps, List.append_eq_nil]
    tauto
  · have ne1 : gh.findings ≠ [] := fun h => by
      have := hg.mpr h
      rw [hgs] at this
      cases this
    simp [mergeCombined, hgs, hps, List.append_eq_nil]
    tauto

/-- Witness for the merged-summary claim at a concrete input: merging two
empty responses keeps the invariant. -/
theorem merged_summary_null_iff_no_findings_witness :
    (mergeCombined emptyScanResponse emptyScanResponse).ess_summary = none
      ↔ (mergeCombined emptyScanResponse emptyScanResponse).findings = [] :=
  merged_summary_null_iff_no_findings emptyScanResponse emptyScanResponse
    (by decide) (by decide)

-- ── C5: the merged avg_ess is not the per-source mean ─────────────────────

theorem specMaxScore_nonneg (v : List ℚ) : 0 ≤ specMaxScore v := by
  induction v with
  | nil => simp [specMaxScore]
  | cons x v ih =>
      simp only [specMaxScore, List.foldr] at *
      exact le_trans ih (le_max_right x _)

theorem specMaxScore_append (u v : List ℚ) :
    specMaxScore (u ++ v) = max (specMaxScore u) (specMaxScore v) := by
  induction u with
  | nil =>
      simp only [List.nil_append, specMaxScore, List.foldr]
      exact (max_eq_right (specMaxScore_nonneg v)).symm
  | cons x u ih =>
      simp only [List.cons_append, specMaxScore, List.foldr, List.append_eq] at *
      rw [ih, max_assoc]

/-- C5 counterexample at a concrete input: a GitHub response with one scored
source (score 8, so its own avg_ess is the spec mean of its score list) and a
Pastebin response with no findings merge to avg_ess 4, while the arithmetic
mean over the sources with at least one finding is 8. -/
theorem combined_avg_ess_counterexample :
    summaryAvgOr0 ghC5.ess_summary = specMeanScore [8] ∧
    summaryMaxOr0 ghC5.ess_summary = specMaxScore [8] ∧
    pbC5.findings = [] ∧
    ((mergeCombined ghC5 pbC5).ess_summary).map ESSSummary.avg_ess = some 4 ∧
    specMeanScore [8] = 8 ∧
    (4 : ℚ) ≠ 8 := by
  refine ⟨?_, ?_, rfl, ?_, ?_, by norm_num⟩
  · show (8 : ℚ) = specMeanScore [8]
    norm_num [specMeanScore]
  · show (8 : ℚ) = specMaxScore [8]
    norm_num [specMaxScore]
  · simp only [mergeCombined, ghC5, pbC5, summaryAvgOr0, summaryMaxOr0,
      summaryLabelOr, summaryColorOr, summaryTotalOr0, summaryTypesOr]
    norm_num
  · norm_num [specMeanScore]

/-- C5 (amended): when the merged combined-scan summary exists, its
`max_ess` is the maximum per-source score of the combined scan (given
sub-summaries whose `max_ess` is their own per-source maximum), but its
`avg_ess` is the halved sum of the two sub-scan averages (missing summaries
counted as 0), not the mean over the sources with at least one finding. -/
theorem combined_summary_formula (gh pb : ScanResponse)
    (ghScores pbScores : List ℚ)
    (hgn : gh.ess_summary = none → ghScores = [])
    (hgs : ∀ s, gh.ess_summary = some s → s.max_ess = specMaxScore ghScores)
    (hpn : pb.ess_summary = none → pbScores = [])
    (hps : ∀ s, pb.ess_summary = some s → s.max_ess = specMaxScore pbScores) :
    ∀ m, (mergeCombined gh pb).ess_summary = some m →
      m.max_ess = specMaxScore (ghScores ++ pbScores) ∧
      m.avg_ess = (summaryAvgOr0 gh.ess_summary
        + summaryAvgOr0 pb.ess_summary) / 2 := by
  intro m hm
  have hmax_g : summaryMaxOr0 gh.ess_summary = specMaxScore ghScores := by
    rcases h : gh.ess_summary with _ | s
    · simp [summaryMaxOr0, hgn h, specMaxScore]
    · simpa [summaryMaxOr0] using hgs s h
  have hmax_p : summaryMaxOr0 pb.ess_summary = specMaxScore pbScores := by
    rcases h : pb.ess_summary with _ | s
    · simp [summaryMaxOr0, hpn h, specMaxScore]
    · simpa [summaryMaxOr0] using hps s h
  by_cases hc : (gh.ess_summary.isSome || pb.ess_summary.isSome) = true
  · simp only [mergeCombined, hc, if_true, Option.some.injEq] at hm
    rw [← hm]
    exact ⟨by rw [specMaxScore_append, hmax_g, hmax_p], rfl⟩
  · simp only [mergeCombined, hc, if_false] at hm
    cases hm

/-- Witness for the amended combined-summary claim at the concrete merge of
`ghC5` and `pbC5`. -/
theorem combined_summary_formula_witness :
    (mergeCombined ghC5 pbC5).ess_summary = some essC5 ∧
    essC5.max_ess = specMaxScore ([8] ++ []) ∧
    essC5.avg_ess = (summaryAvgOr0 ghC5.ess_summary
      + summaryAvgOr0 pbC5.ess_summary) / 2 := by
  have hss : (mergeCombined ghC5 pbC5).ess_summary = some essC5 := by
    simp only [mergeCombined, ghC5, pbC5, essC5, summaryAvgOr0, summaryMaxOr0,
      summaryLabelOr, summaryColorOr, summaryTotalOr0, summaryTypesOr,
      jsSetDedup]
    norm_num
    exact ⟨fun h => absurd h (by decide), fun h => absurd h (by decide),
      by simp [jsSetDedup]⟩
  have h := combined_summary_formula ghC5 pbC5 [8] []
    (fun h => Option.noConfusion h)
    (fun s hs => by
      rw [← Option.some.inj hs]
      norm_num [specMaxScore])
    (fun _ => rfl)
    (fun s hs => Option.noConfusion hs)
    essC5 hss
  exact ⟨hss, h.1, h.2⟩

-- ── C1: masking and raw-value exposure ────────────────────────────────────

/-- C1 counterexample at a concrete input: the finding promoted from a valid
Aadhaar candidate carries the raw matched value in its `value` field, and the
report-generation request built by `ReportDownloadButton.handleDownload`
forwards it verbatim — the unmasked raw value does occur in a field of an
output structure. -/
theorem raw_value_in_report_counterexample :
    ((buildReportRequest (runValidation [cexCandidate]) "github" "acme/repo" 1).map
        (fun req => req.findings.map (fun f => f.value))) = some ["234123412346"] ∧
    cexCandidate.raw_value = "234123412346" ∧
    ((runValidation [cexCandidate]).map (fun f => f.value_masked))
      = ["23XXXXXXXX46"] ∧
    ("234123412346" : String) ≠ "23XXXXXXXX46" := by
  refine ⟨by decide, rfl, by decide, by decide⟩

/-- C1 (amended): `value_masked` retains only the first two and last two
characters of the raw value — the mask is a function of those and the length
alone — but the `Finding` structure itself carries the raw matched value in
its `value` field and the report-generation request forwards the findings,
raw values included, verbatim. -/
theorem masking_and_raw_value_exposure :
    (∀ s t : String, s.data.take 2 = t.data.take 2 →
      s.data.drop (s.length - 2) = t.data.drop (t.length - 2) →
      s.length = t.length → maskValue s = maskValue t) ∧
    (∀ (fs : List Finding) (st tg : String) (n : Nat), fs ≠ [] →
      buildReportRequest fs st tg n
        = some { findings := fs, ess_results := [], scan_type := st,
                 target := tg, files_scanned := n }) := by
  constructor
  · intro s t h2 hl hlen
    unfold maskValue
    rw [h2, hl, hlen]
  · intro fs st tg n hne
    unfold buildReportRequest
    rw [if_neg (by simpa [List.length_eq_zero] using hne)]

/-- Witness for the amended masking claim at concrete inputs: two raw values
agreeing on their first two and last two characters mask identically, and the
report request for one finding carries that finding verbatim. -/
theorem masking_and_raw_value_exposure_witness :
    maskValue "234123412346" = maskValue "23ABCDEFGH46" ∧
    buildReportRequest [findingC5] "github" "acme/repo" 1
      = some { findings := [findingC5], ess_results := [],
               scan_type := "github", target := "acme/repo",
               files_scanned := 1 } :=
  ⟨masking_and_raw_value_exposure.1 "234123412346" "23ABCDEFGH46"
      (by decide) (by decide) (by decide),
   masking_and_raw_value_exposure.2 [findingC5] "github" "acme/repo" 1
      (by simp)⟩

-- ── C6: disambiguation stage semantics ────────────────────────────────────

/-- C6 (spec-modelled): with disambiguation disabled every finding passes
through unchanged; enabled, the stage maps each finding positionally —
never deleting any — demoting risk exactly one tier and scaling confidence
by (1 − probability) when the context is classified synthetic above the
threshold, and leaving the finding untouched otherwise. -/
theorem disambiguation_semantics (classify : Finding → DisambiguationVerdict)
    (fs : List Finding) :
    runDisambiguation false classify fs = fs ∧
    (runDisambiguation true classify fs).length = fs.length ∧
    (∀ i : Nat, (runDisambiguation true classify fs)[i]?
      = (fs[i]?).map (applyDisambiguation classify)) ∧
    (∀ f : Finding, (classify f).is_synthetic = true →
      synthThreshold < (classify f).probability →
      applyDisambiguation classify f
        = { f with risk := demoteRisk f.risk,
                   confidence := f.confidence * (1 - (classify f).probability) }) ∧
    (∀ f : Finding, ¬((classify f).is_synthetic = true ∧
        synthThreshold < (classify f).probability) →
      applyDisambiguation classify f = f) := by
  refine ⟨rfl, by simp [runDisambiguation], ?_, ?_, ?_⟩
  · intro i
    simp [runDisambiguation]
  · intro f h1 h2
    simp only [applyDisambiguation]
    rw [if_pos ⟨h1, h2⟩]
  · intro f h
    simp only [applyDisambiguation]
    rw [if_neg h]

/-- Witness for the disambiguation claim at the spec's test-card scenario:
disabled, the Critical finding is unchanged; enabled with synthetic
probability 0.9, its risk demotes to High and its confidence is scaled by
0.1. -/
theorem disambiguation_semantics_witness :
    runDisambiguation false classify0 [testCardFinding] = [testCardFinding] ∧
    applyDisambiguation classify0 testCardFinding
      = { testCardFinding with
          risk := "High",
          confidence := testCardFinding.confidence * (1 - 9 / 10) } := by
  refine ⟨(disambiguation_semantics classify0 [testCardFinding]).1, ?_⟩
  have h := (disambiguation_semantics classify0 [testCardFinding]).2.2.2.1
    testCardFinding rfl (by norm_num [synthThreshold, classify0])
  simpa [classify0, demoteRisk, testCardFinding] using h

-- ── C7: history persists aggregates only ──────────────────────────────────

/-- A redaction blanking every content-bearing field of a finding. -/
def scrubFinding : Finding → Finding :=
  fun f => { f with value := "", value_masked := "", snippet := "" }

/-- C7: the history-save request built by `ScanResults` is a function of the
scan response only through its aggregates — replacing every finding by an
arbitrary redaction leaves the record unchanged, and two responses agreeing
on findings count, summary, source count and duration produce identical
records — so no individual finding's raw value, masked value, or snippet is
included. -/
theorem history_persists_only_aggregates :
    (∀ (r : ScanResponse) (redact : Finding → Finding) (st tg : String),
      buildHistoryRequest { r with findings := r.findings.map redact } st tg
        = buildHistoryRequest r st tg) ∧
    (∀ (r₁ r₂ : ScanResponse) (st tg : String),
      r₁.findings.length = r₂.findings.length →
      r₁.ess_summary = r₂.ess_summary →
      r₁.total_sources_scanned = r₂.total_sources_scanned →
      r₁.scan_duration = r₂.scan_duration →
      buildHistoryRequest r₁ st tg = buildHistoryRequest r₂ st tg) := by
  constructor
  · intro r redact st tg
    simp [buildHistoryRequest]
  · intro r₁ r₂ st tg hlen hsum hsrc hdur
    simp [buildHistoryRequest, hlen, hsum, hsrc, hdur]

/-- Witness for the history claim at concrete inputs: scrubbing the finding
of `ghC5` or replacing it wholesale leaves the saved record unchanged. -/
theorem history_persists_only_aggregates_witness :
    buildHistoryRequest { ghC5 with findings := ghC5.findings.map scrubFinding }
        "combined" "acme/repo" = buildHistoryRequest ghC5 "combined" "acme/repo" ∧
    buildHistoryRequest { ghC5 with findings := [testCardFinding] }
        "combined" "acme/repo" = buildHistoryRequest ghC5 "combined" "acme/repo" :=
  ⟨history_persists_only_aggregates.1 ghC5 scrubFinding "combined" "acme/repo",
   history_persists_only_aggregates.2 { ghC5 with findings := [testCardFinding] }
     ghC5 "combined" "acme/repo" rfl rfl rfl rfl⟩

-- ── C8: auth context invariant ────────────────────────────────────────────

/-- C8 counterexample at a concrete input: with a truthy stored token and an
unparseable stored user, the mount-time restore sets the token but leaves the
user null — it neither sets both from storage nor leaves both null. -/
theorem auth_restore_counterexample :
    (restoreFromStorage stC8).token = some "tok" ∧
    (restoreFromStorage stC8).user = none ∧
    ¬(((restoreFromStorage stC8).token ≠ none
        ∧ (restoreFromStorage stC8).user ≠ none)
      ∨ ((restoreFromStorage stC8).token = none
        ∧ (restoreFromStorage stC8).user = none)) := by
  decide

/-- C8 (amended): `isAuthenticated` is true exactly when the token is
non-null and non-empty and the user is non-null; login and register set both
state fields and both storage keys; logout nulls both and removes both keys;
and the mount-time restore either sets both from storage, or leaves both
null, or — when the stored user fails to parse — leaves the user null (so
`isAuthenticated` stays false), keeps the already-enqueued token, and removes
both storage keys. -/
theorem auth_invariant_amended :
    (∀ s : AuthState, isAuthenticated s = true
      ↔ (jsTruthy s.token = true ∧ s.user ≠ none)) ∧
    (∀ (t ue un : String) (s : AuthState),
      (loginSuccess t ue un s).token = some t ∧
      (loginSuccess t ue un s).user = some { email := ue, full_name := un } ∧
      (loginSuccess t ue un s).storage
        = { token := some t,
            user := UserSlot.parsed { email := ue, full_name := un } }) ∧
    (∀ (t ue un : String) (s : AuthState),
      registerSuccess t ue un s = loginSuccess t ue un s) ∧
    (∀ s : AuthState, (logout s).token = none ∧ (logout s).user = none ∧
      (logout s).storage = { token := none, user := UserSlot.absent }) ∧
    (∀ st : AuthStorage,
      (∃ t u, st.token = some t ∧ st.user = UserSlot.parsed u ∧
        restoreFromStorage st
          = { user := some u, token := some t, storage := st }) ∨
      ((restoreFromStorage st).token = none
        ∧ (restoreFromStorage st).user = none
        ∧ (restoreFromStorage st).storage = st) ∨
      ((restoreFromStorage st).user = none ∧
        isAuthenticated (restoreFromStorage st) = false ∧
        (restoreFromStorage st).storage
          = { token := none, user := UserSlot.absent })) := by
  refine ⟨?_, fun t ue un s => ⟨rfl, rfl, rfl⟩, fun t ue un s => rfl,
    fun s => ⟨rfl, rfl, rfl⟩, ?_⟩
  · intro s
    simp [isAuthenticated, Bool.and_eq_true, jsTruthy,
      Option.isSome_iff_ne_none]
  · intro st
    rcases hst : st.token with _ | t
    · right; left
      exact ⟨by simp [restoreFromStorage, hst], by simp [restoreFromStorage, hst],
        by simp [restoreFromStorage, hst]⟩
    · by_cases he : t.isEmpty
      · right; left
        exact ⟨by simp [restoreFromStorage, hst, he],
          by simp [restoreFromStorage, hst, he],
          by simp [restoreFromStorage, hst, he]⟩
      · rcases hsu : st.user with _ | _ | u
        · right; left
          exact ⟨by simp [restoreFromStorage, hst, he, hsu],
            by simp [restoreFromStorage, hst, he, hsu],
            by simp [restoreFromStorage, hst, he, hsu]⟩
        · right; right
          refine ⟨by simp [restoreFromStorage, hst, he, hsu], ?_,
            by simp [restoreFromStorage, hst, he, hsu]⟩
          simp [isAuthenticated, restoreFromStorage, hst, he, hsu]
        · left
          exact ⟨t, u, rfl, rfl, by simp [restoreFromStorage, hst, he, hsu]⟩

-- ── C9: API URL normalization round-trip ──────────────────────────────────

theorem dropWhile_self_idem {α : Type} (p : α → Bool) (l : List α) :
    (l.dropWhile p).dropWhile p = l.dropWhile p := by
  induction l with
  | nil => rfl
  | cons a l ih =>
      cases hpa : p a
      · simp [List.dropWhile_cons, hpa]
      · simp [List.dropWhile_cons, hpa, ih]

theorem stripTrailingSlashes_idem (u : String) :
    stripTrailingSlashes (stripTrailingSlashes u) = stripTrailingSlashes u := by
  unfold stripTrailingSlashes
  dsimp only
  rw [List.reverse_reverse, dropWhile_self_idem]

/-- C9 counterexample at a concrete input: after `setApiUrl "/"` the stored
value is the empty string, which is JS-falsy, so `getApiUrl` returns the
default URL rather than the stored normalization of the input. -/
theorem api_url_counterexample :
    stripTrailingSlashes "/" = "" ∧
    getApiUrl "http://localhost:8000" (setApiUrl "/" { apiUrl := none })
      = "http://localhost:8000" ∧
    ("http://localhost:8000" : String) ≠ "" := by
  refine ⟨by decide, by decide, by decide⟩

/-- C9 (amended): whenever the trailing-slash-stripped URL is non-empty,
`getApiUrl` after `setApiUrl url` returns `url` with all trailing slashes
removed, and `setApiUrl (getApiUrl ())` leaves the stored URL unchanged
(the normalization is idempotent). -/
theorem api_url_roundtrip (url defaultUrl : String) (st : ApiStorage)
    (h : stripTrailingSlashes url ≠ "") :
    getApiUrl defaultUrl (setApiUrl url st) = stripTrailingSlashes url ∧
    setApiUrl (getApiUrl defaultUrl (setApiUrl url st)) (setApiUrl url st)
      = setApiUrl url st := by
  have hne : (stripTrailingSlashes url).isEmpty = false := by
    rw [← Bool.not_eq_true, String.isEmpty_iff]
    exact h
  constructor
  · simp [getApiUrl, setApiUrl, hne]
  · simp [getApiUrl, setApiUrl, hne, stripTrailingSlashes_idem]

/-- Witness for the amended API-URL claim at a concrete input. -/
theorem api_url_roundtrip_witness :
    getApiUrl "http://localhost:8000"
        (setApiUrl "http://x/" { apiUrl := none })
      = stripTrailingSlashes "http://x/" ∧
    setApiUrl (getApiUrl "http://localhost:8000"
        (setApiUrl "http://x/" { apiUrl := none }))
        (setApiUrl "http://x/" { apiUrl := none })
      = setApiUrl "http://x/" { apiUrl := none } :=
  api_url_roundtrip "http://x/" "http://localhost:8000" { apiUrl := none }
    (by decide)

-- ── C10: registration form guards ─────────────────────────────────────────

/-- C10: the registration submit handler sets an error and never issues the
register call when any field is empty, the password is shorter than 6
characters, or the passwords differ; it issues the register call exactly
when all preconditions hold. -/
theorem register_guards (fullName email password confirmPassword : String) :
    ((fullName = "" ∨ email = "" ∨ password = "" ∨ confirmPassword = "" ∨
        password.length < 6 ∨ password ≠ confirmPassword) →
      ∃ msg, handleSubmit fullName email password confirmPassword
        = SubmitOutcome.errorSet msg) ∧
    (fullName ≠ "" → email ≠ "" → password ≠ "" → confirmPassword ≠ "" →
      6 ≤ password.length → password = confirmPassword →
      handleSubmit fullName email password confirmPassword
        = SubmitOutcome.registerCalled email password fullName) := by
  constructor
  · intro h
    unfold handleSubmit
    split_ifs with h1 h2 h3
    · exact ⟨_, rfl⟩
    · exact ⟨_, rfl⟩
    · exact ⟨_, rfl⟩
    · exfalso
      rcases h with h | h | h | h | h | h
      · exact h1 (Or.inl h)
      · exact h1 (Or.inr (Or.inl h))
      · exact h1 (Or.inr (Or.inr (Or.inl h)))
      · exact h1 (Or.inr (Or.inr (Or.inr h)))
      · exact h2 h
      · exact h3 h
  · intro hf he hp hc hlen heq
    unfold handleSubmit
    rw [if_neg (by tauto), if_neg (by omega), if_neg (by tauto)]

/-- Witness for the registration-guard claim at concrete inputs: valid data
issues the register call; an all-empty form sets an error instead. -/
theorem register_guards_witness :
    handleSubmit "John Doe" "john@example.com" "secret1" "secret1"
      = SubmitOutcome.registerCalled "john@example.com" "secret1" "John Doe" ∧
    (∃ msg, handleSubmit "" "" "" "" = SubmitOutcome.errorSet msg) :=
  ⟨(register_guards "John Doe" "john@example.com" "secret1" "secret1").2
      (by decide) (by decide) (by decide) (by decide) (by decide) rfl,
   (register_guards "" "" "" "").1 (Or.inl rfl)⟩

/-- Witness for the amended auth claim: the restore trichotomy instantiated
at the concrete storage with an unparseable stored user. -/
theorem auth_invariant_amended_witness :
    (∃ t u, stC8.token = some t ∧ stC8.user = UserSlot.parsed u ∧
      restoreFromStorage stC8
        = { user := some u, token := some t, storage := stC8 }) ∨
    ((restoreFromStorage stC8).token = none
      ∧ (restoreFromStorage stC8).user = none
      ∧ (restoreFromStorage stC8).storage = stC8) ∨
    ((restoreFromStorage stC8).user = none ∧
      isAuthenticated (restoreFromStorage stC8) = false ∧
      (restoreFromStorage stC8).storage
        = { token := none, user := UserSlot.absent }) :=
  auth_invariant_amended.2.2.2.2 stC8
